import Mathlib

/-!
Shallow embedding of the multisocket connection core.

Source files embedded:
  * conn.ts (src/unnamed/part_000): the abstract `WSConn` — channel table, inbound
    dispatch (`onwsopen` / `onwsmessage`), the connection-level `catch`, identifier
    allocation (`genUUID`), `open`, `waitpath`, `request`.
  * server.ts / client.ts (src/src/server.ts): `WSServerConn.close` / `send`,
    `WSClientConn.close`.

`channel.ts` (the `WSChannel` class) is not under src/; the parts of it that the
claims need (`WSChannel.catch`, `WSChannel.close`, `WSChannel.final`, and the
force-close of channels when their connection closes) are modelled from the spec
and carry doc comments starting with `Modelled from the spec:`.

Payload values (`data` fields) and identifiers are modelled as strings; the
source treats both as opaque on this layer.  The pub/sub emitter (mutevents) is
external to the repository; per spec §9 it is modelled as synchronous fan-out in
registration order, and a handler's aggregate outcome is a `Except String Unit`
(`.error e` = some listener threw `e`).  Observable actions (frames sent, events
emitted) are recorded as an ordered `List Effect`.
-/

abbrev UUID := String

abbrev Data := String

/-- Wire frame (types.ts / spec §3): a tagged union keyed by `type`; the `data`
constructor is the untagged ordinary-data frame (`type` omitted on the wire). -/
inductive WSMessage
  | «open» (uuid : UUID) (path : String) (data : Data)
  | data (uuid : UUID) (data : Data)
  | close (uuid : UUID) (data : Data)
  | error (uuid : UUID) (reason : String)
deriving DecidableEq

/-- Reason carried by a channel close event (errors.ts taxonomy): a graceful
close frame's payload, a `ChannelCloseError` with the remote reason (or a caught
handler failure's description), or a `ConnectionCloseError` when the owning
connection closed. -/
inductive CloseReason
  | graceful (data : Data)
  | chanErr (reason : String)
  | connTerminated (reason : String)
deriving DecidableEq

/-- Observable action performed by the connection core, in execution order. -/
inductive Effect
  | sent (msg : WSMessage)
  | pathEmit (path : String) (uuid : UUID) (data : Data)
  | chanMessage (uuid : UUID) (data : Data)
  | chanClose (uuid : UUID) (reason : CloseReason)
  | connClose (reason : String)
deriving DecidableEq

/-- Connection state: the channel table (its keys; each entry also carries the
`once("close")` removal hook installed at registration) and the transport's
closed flag. -/
structure ConnState where
  channels : List UUID
  closed : Bool
deriving DecidableEq

/-- Aggregate outcome of invoking the registered listeners for one emission
(mutevents is external; `.error e` means a listener threw `e`). -/
structure Handlers where
  onPath : String → UUID → Data → Except String Unit
  onMessage : UUID → Data → Except String Unit
  onClose : UUID → CloseReason → Except String Unit

/-- Modelled from the spec: `WSChannel.catch` lives in channel.ts, which is not
under src/.  Per §7, a failure inside a path handler or a channel listener is
translated into a close of the affected channel with the failure's description
as the reason; the close fires the channel's close event, whose `once` hook
removes the identifier from the table. -/
def WSChannel.«catch» (uuid : UUID) (s : ConnState) (e : String) :
    ConnState × List Effect :=
  ({ s with channels := s.channels.erase uuid }, [.chanClose uuid (.chanErr e)])

/-- Modelled from the spec: channel.ts (WSChannel) is not under src/.  Per §3
and §7, closing a connection force-closes every channel still open on it (each
channel reacts to its connection's close event), firing each channel's close
event before/atomically with the single connection close event and emptying the
table; the connection close emission itself embeds `WSServerConn.close`
(server.ts lines 121-125). -/
def WSConn.closeCascade (s : ConnState) (reason : String) :
    ConnState × List Effect :=
  (⟨[], true⟩,
    s.channels.map (fun u => Effect.chanClose u (.connTerminated reason))
      ++ [Effect.connClose reason])

/-- Embeds `WSConn.catch` (conn.ts lines 63-70): logs the failure and, when the
connection is not yet closed, closes it with the failure's reason/description. -/
def WSConn.«catch» (s : ConnState) (e : String) : ConnState × List Effect :=
  if s.closed then (s, []) else WSConn.closeCascade s e

/-- Embeds `WSConn.onwsopen` (conn.ts lines 72-88): reject a duplicate
identifier with `"UUID already exists"`; otherwise create and register the
channel, install the close-removal hook, then deliver `(channel, data)` to the
path registry, funnelling a handler failure into the channel's own catch.
Result: (state, effects, thrown error if any). -/
def WSConn.onwsopen (h : Handlers) (s : ConnState) (uuid : UUID) (path : String)
    (d : Data) : ConnState × List Effect × Option String :=
  if uuid ∈ s.channels then
    (s, [], some "UUID already exists")
  else
    let s1 : ConnState := { s with channels := uuid :: s.channels }
    match h.onPath path uuid d with
    | .ok _ => (s1, [.pathEmit path uuid d], none)
    | .error e =>
        let r := WSChannel.«catch» uuid s1 e
        (r.1, .pathEmit path uuid d :: r.2, none)

/-- Embeds `WSConn.onwsmessage` (conn.ts lines 90-123): `open` frames go to
`onwsopen`; any other frame looks its identifier up in the table and throws
`"Invalid UUID"` when absent.  A data frame emits the channel's message event
(listener failures go to the channel's catch); a close frame emits the
channel's close event with the carried payload, an error frame emits it with a
`ChannelCloseError` — in both cases the `once` removal hook (registered first)
drops the table entry, and a listener failure goes to the CONNECTION's catch. -/
def WSConn.onwsmessage (h : Handlers) (s : ConnState) (m : WSMessage) :
    ConnState × List Effect × Option String :=
  match m with
  | .«open» uuid path d => WSConn.onwsopen h s uuid path d
  | .data uuid d =>
      if uuid ∈ s.channels then
        match h.onMessage uuid d with
        | .ok _ => (s, [.chanMessage uuid d], none)
        | .error e =>
            let r := WSChannel.«catch» uuid s e
            (r.1, .chanMessage uuid d :: r.2, none)
      else (s, [], some "Invalid UUID")
  | .close uuid d =>
      if uuid ∈ s.channels then
        let s1 : ConnState := { s with channels := s.channels.erase uuid }
        match h.onClose uuid (.graceful d) with
        | .ok _ => (s1, [.chanClose uuid (.graceful d)], none)
        | .error e =>
            let r := WSConn.«catch» s1 e
            (r.1, .chanClose uuid (.graceful d) :: r.2, none)
      else (s, [], some "Invalid UUID")
  | .error uuid reason =>
      if uuid ∈ s.channels then
        let s1 : ConnState := { s with channels := s.channels.erase uuid }
        match h.onClose uuid (.chanErr reason) with
        | .ok _ => (s1, [.chanClose uuid (.chanErr reason)], none)
        | .error e =>
            let r := WSConn.«catch» s1 e
            (r.1, .chanClose uuid (.chanErr reason) :: r.2, none)
      else (s, [], some "Invalid UUID")

/-- Embeds `WSConn.genUUID` (conn.ts lines 142-148): draw from the generator
until the drawn identifier is absent from the table.  `gen` is the external
UUID generator as a stream of draws, `i` the index of the next draw; the
source's `while (true)` is given fuel, `none` meaning the loop was still
colliding after `fuel` draws.  Returns the fresh identifier and the next draw
index. -/
def WSConn.genUUID (gen : Nat → UUID) (channels : List UUID) :
    Nat → Nat → Option (UUID × Nat)
  | 0, _ => none
  | fuel + 1, i =>
      if gen i ∈ channels then WSConn.genUUID gen channels fuel (i + 1)
      else some (gen i, i + 1)

/-- Run of `WSConn.open`, keeping the intermediate state observable:
`stateAtSend` is the connection state at the moment `send(message)` executes,
`after` the state when `open` returns. -/
structure OpenRun where
  uuid : UUID
  stateAtSend : ConnState
  sentMsg : WSMessage
  after : ConnState
deriving DecidableEq

/-- Embeds `WSConn.open` (conn.ts lines 155-170), in source order: allocate a
fresh identifier, create the channel, `await this.send(message)` (the open
frame), THEN register the channel in the table and install the close-removal
hook, and return the channel. -/
def WSConn.«open» (gen : Nat → UUID) (fuel : Nat) (s : ConnState) (path : String)
    (d : Data) : Option OpenRun :=
  match WSConn.genUUID gen s.channels fuel 0 with
  | none => none
  | some (uuid, _) =>
      some { uuid := uuid
             stateAtSend := s
             sentMsg := WSMessage.«open» uuid path d
             after := { s with channels := uuid :: s.channels } }

/-- Sequential allocation of `n` identifiers the way consecutive `open` calls
do it: each identifier is drawn via `WSConn.genUUID` against the table as
grown by the previous registrations. -/
def WSConn.allocN (gen : Nat → UUID) (fuel : Nat) :
    Nat → List UUID → Nat → Option (List UUID)
  | 0, _, _ => some []
  | n + 1, cs, i =>
      match WSConn.genUUID gen cs fuel i with
      | none => none
      | some (u, j) => (WSConn.allocN gen fuel n (u :: cs) j).map (u :: ·)

/-- Shape of the race run by `waitpath`: either `Timeout.race` over the next
path message and the connection close event with the given timeout, or
`Abort.race` over the same two alternatives with no timeout. -/
inductive WaitpathRace
  | withTimeout (timeoutMs : Nat)
  | noTimeout
deriving DecidableEq

/-- Embeds `WSConn.waitpath` (conn.ts lines 131-140): with `delay > 0` it runs
`Timeout.race([message, close], 1000)` — note the literal 1000, the `delay`
argument is not passed — and otherwise `Abort.race([message, close])`. -/
def WSConn.waitpath (delay : Nat := 0) : WaitpathRace :=
  if delay > 0 then .withTimeout 1000 else .noTimeout

/-- Outcome of awaiting a channel's terminal response: the terminal frame's
payload, a distinct timeout condition, or still pending (no deadline and no
terminal frame — the wait continues, subject only to connection closure). -/
inductive FinalResult
  | value (d : Data)
  | timedOut
  | pending
deriving DecidableEq

/-- Modelled from the spec: `WSChannel.final` lives in channel.ts, which is not
under src/.  Per §4.2, it awaits the first terminal event for the channel,
racing against the deadline when one is given; a deadline of 0 means no
timeout; on timeout it fails with a timeout condition and leaves the channel
open (still registered).  `arrival` is the arrival time and payload of the
first terminal frame on the channel, if any ever comes. -/
def WSChannel.final (deadline : Nat) (arrival : Option (Nat × Data)) :
    FinalResult :=
  match arrival with
  | some (t, d) => if deadline = 0 ∨ t < deadline then .value d else .timedOut
  | none => if deadline = 0 then .pending else .timedOut

/-- Embeds `WSConn.request` (conn.ts lines 179-182): `open` the channel, then
await its terminal outcome via `final` with the given delay; the source's
declaration defaults `delay` to 1000 when the caller omits it. -/
def WSConn.request (gen : Nat → UUID) (fuel : Nat) (s : ConnState)
    (path : String) (d : Data) (arrival : Option (Nat × Data))
    (delay : Nat := 1000) : Option (ConnState × UUID × FinalResult) :=
  match WSConn.«open» gen fuel s path d with
  | none => none
  | some run => some (run.after, run.uuid, WSChannel.final delay arrival)

/-- Per-channel state for the explicit close path: the channel's identifier and
its one-shot closed flag. -/
structure WSChannelState where
  uuid : UUID
  closed : Bool
deriving DecidableEq

/-- Modelled from the spec: `WSChannel.close` lives in channel.ts, which is not
under src/.  Per §4.2, closing sends a `close` frame tagged with the channel's
identifier, fires the local close event once and deregisters from the table;
the Open → Closed transition is one-shot and double-closing does not re-emit.
Returns (channel, connection, effects). -/
def WSChannel.close (c : WSChannelState) (s : ConnState) (d : Data) :
    WSChannelState × ConnState × List Effect :=
  if c.closed then (c, s, [])
  else ({ c with closed := true },
        { s with channels := s.channels.erase c.uuid },
        [.sent (.close c.uuid d), .chanClose c.uuid (.graceful d)])

/-- Embeds `WSServerConn.close` (server.ts lines 121-125): `socket.close(1000,
reason)` then an UNCONDITIONAL `emit("close", ConnectionCloseError(reason))` —
there is no already-closed guard; the reaction of the still-open channels to
that event is `WSConn.closeCascade` (the transport's own close is taken as
idempotent). -/
def WSServerConn.close (s : ConnState) (reason : String) :
    ConnState × List Effect :=
  WSConn.closeCascade s reason

/-- Embeds `WSServerConn.send` (server.ts lines 116-119) together with the
transport contract of spec §4.1/§6: the frame is serialized and handed to
`socket.send`, which fails when the socket is closed. -/
def WSServerConn.send (s : ConnState) (m : WSMessage) : Option Effect :=
  if s.closed then none else some (.sent m)

/-- Embeds `WSClientConn.close` (client.ts): `if (this.closed) return` — a
no-op on an already-closed connection — otherwise `socket.close(1000, reason)`;
the connection close event is then emitted once by the socket's `onclose`
callback, modelled as happening with the call. -/
def WSClientConn.close (s : ConnState) (reason : String) :
    ConnState × List Effect :=
  if s.closed then (s, []) else WSConn.closeCascade s reason

/-! Helper lemmas shared by several claim theorems. -/

/-- Freshness of the identifier allocator: a successful draw is absent from the
table it was checked against. -/
theorem WSConn.genUUID_fresh (gen : Nat → UUID) (cs : List UUID) :
    ∀ (fuel i : Nat) (u : UUID) (j : Nat),
      WSConn.genUUID gen cs fuel i = some (u, j) → u ∉ cs := by
  intro fuel
  induction fuel with
  | zero => intro i u j h; simp [WSConn.genUUID] at h
  | succ n ih =>
      intro i u j h
      by_cases hc : gen i ∈ cs
      · exact ih (i + 1) u j (by simpa [WSConn.genUUID, hc] using h)
      · have h' : gen i = u ∧ i + 1 = j := by
          simpa [WSConn.genUUID, hc] using h
        exact h'.1 ▸ hc

/-- Shape of every successful `WSConn.open` run: the identifier is fresh, the
send happens at the caller's state, the frame sent is the open frame, and the
state on return has the identifier registered on top of the caller's table. -/
theorem WSConn.open_eq_some (gen : Nat → UUID) (fuel : Nat) (s : ConnState)
    (path : String) (d : Data) (r : OpenRun)
    (h : WSConn.«open» gen fuel s path d = some r) :
    r.uuid ∉ s.channels ∧ r.stateAtSend = s ∧
    r.sentMsg = WSMessage.«open» r.uuid path d ∧
    r.after = ⟨r.uuid :: s.channels, s.closed⟩ := by
  unfold WSConn.«open» at h
  cases hg : WSConn.genUUID gen s.channels fuel 0 with
  | none => rw [hg] at h; exact absurd h (by simp)
  | some p =>
      obtain ⟨u, j⟩ := p
      rw [hg] at h
      have hr : r = { uuid := u, stateAtSend := s,
                      sentMsg := WSMessage.«open» u path d,
                      after := { s with channels := u :: s.channels } } := by
        exact (Option.some.injEq _ _ ▸ h).symm
      subst hr
      exact ⟨WSConn.genUUID_fresh gen s.channels fuel 0 u j hg, rfl, rfl, rfl⟩

/-- Distinctness of sequentially allocated identifiers: each one is absent from
the starting table and from all earlier allocations. -/
theorem WSConn.allocN_nodup (gen : Nat → UUID) (fuel : Nat) :
    ∀ (n : Nat) (cs : List UUID) (i : Nat) (l : List UUID),
      WSConn.allocN gen fuel n cs i = some l →
      l.Nodup ∧ ∀ u ∈ l, u ∉ cs := by
  intro n
  induction n with
  | zero =>
      intro cs i l h
      simp [WSConn.allocN] at h
      subst h
      simp
  | succ m ih =>
      intro cs i l h
      unfold WSConn.allocN at h
      cases hg : WSConn.genUUID gen cs fuel i with
      | none => rw [hg] at h; exact absurd h (by simp)
      | some p =>
          obtain ⟨u, j⟩ := p
          rw [hg] at h
          have h2 : Option.map (u :: ·) (WSConn.allocN gen fuel m (u :: cs) j)
              = some l := h
          cases ht : WSConn.allocN gen fuel m (u :: cs) j with
          | none => rw [ht] at h2; exact absurd h2 (by simp)
          | some l' =>
              rw [ht] at h2
              have hl : l = u :: l' := by
                simpa using h2.symm
              subst hl
              obtain ⟨hnd, hout⟩ := ih (u :: cs) j l' ht
              have hu : u ∉ cs := WSConn.genUUID_fresh gen cs fuel i u j hg
              refine ⟨List.nodup_cons.2 ⟨fun hmem => ?_, hnd⟩, ?_⟩
              · exact hout u hmem (List.mem_cons_self u cs)
              · intro v hv
                rcases List.mem_cons.1 hv with hv | hv
                · exact hv ▸ hu
                · exact fun hvc => hout v hv (List.mem_cons.2 (Or.inr hvc))

/-! Claim theorems. -/

/-- C10: an inbound open frame whose identifier is already present in the
channel table makes the dispatcher raise "UUID already exists" and leaves the
table unchanged — no channel is created or replaced and no path handler (no
effect at all) is invoked for that frame. -/
theorem duplicate_open_rejected (h : Handlers) (s : ConnState) (uuid : UUID)
    (path : String) (d : Data) (hm : uuid ∈ s.channels) :
    WSConn.onwsmessage h s (.«open» uuid path d) =
      (s, [], some "UUID already exists") := by
  simp [WSConn.onwsmessage, WSConn.onwsopen, hm]

theorem duplicate_open_rejected_witness :
    WSConn.onwsmessage
      ⟨fun _ _ _ => .ok (), fun _ _ => .ok (), fun _ _ => .ok ()⟩
      ⟨["u"], false⟩ (.«open» "u" "p" "d") =
      (⟨["u"], false⟩, [], some "UUID already exists") :=
  duplicate_open_rejected _ _ _ _ _ (by decide)

/-- C6: an inbound data, close or error frame whose identifier is absent from
the channel table invokes no channel handler (the effect list is empty) and
raises the protocol-violation error "Invalid UUID" instead of being silently
dropped. -/
theorem unknown_uuid_rejected (h : Handlers) (s : ConnState) (uuid : UUID)
    (d : Data) (reason : String) (hm : uuid ∉ s.channels) :
    WSConn.onwsmessage h s (.data uuid d) = (s, [], some "Invalid UUID") ∧
    WSConn.onwsmessage h s (.close uuid d) = (s, [], some "Invalid UUID") ∧
    WSConn.onwsmessage h s (.error uuid reason) =
      (s, [], some "Invalid UUID") := by
  refine ⟨?_, ?_, ?_⟩ <;> simp [WSConn.onwsmessage, hm]

theorem unknown_uuid_rejected_witness :
    WSConn.onwsmessage
      ⟨fun _ _ _ => .ok (), fun _ _ => .ok (), fun _ _ => .ok ()⟩
      ⟨["v"], false⟩ (.data "u" "d") = (⟨["v"], false⟩, [], some "Invalid UUID") :=
  (unknown_uuid_rejected _ _ _ "d" "r" (by decide)).1

/-- C7: the identifier allocator retries until it draws an identifier absent
from the channel table, so a successful allocation never collides with the
table, and allocating N channels in sequence (each registration growing the
table) yields N pairwise-distinct identifiers. -/
theorem genUUID_never_collides (gen : Nat → UUID) (cs : List UUID)
    (fuel i n : Nat) (u : UUID) (j : Nat) (l : List UUID) :
    (WSConn.genUUID gen cs fuel i = some (u, j) → u ∉ cs) ∧
    (WSConn.allocN gen fuel n cs i = some l → l.Nodup) := by
  exact ⟨WSConn.genUUID_fresh gen cs fuel i u j,
         fun h => (WSConn.allocN_nodup gen fuel n cs i l h).1⟩

theorem genUUID_never_collides_witness :
    ("a" : UUID) ∉ ([] : List UUID) ∧ (["a", "b"] : List UUID).Nodup := by
  have h := genUUID_never_collides (fun k => if k = 0 then "a" else "b")
    [] 1 0 2 "a" 1 ["a", "b"]
  exact ⟨h.1 (by decide), h.2 (by decide)⟩

/-- C1 counterexample: in the run of `WSConn.open` from the empty table, the
connection state at the moment the open frame is sent (`stateAtSend`) still has
an empty channel table — the new identifier "a" is NOT registered before the
open frame is transmitted; it only appears in the state `open` returns. -/
theorem open_registration_not_before_send :
    WSConn.«open» (fun _ => "a") 1 ⟨[], false⟩ "p" "d" =
      some { uuid := "a", stateAtSend := ⟨[], false⟩,
             sentMsg := .«open» "a" "p" "d", after := ⟨["a"], false⟩ } ∧
    ("a" : UUID) ∉ ConnState.channels ⟨[], false⟩ := by
  exact ⟨rfl, by decide⟩

/-- C1 amended: `WSConn.open` sends the open frame FIRST, at the caller's state
(the channel is not yet in the table at send time), and registers the channel
(with its close-removal hook) immediately AFTER the awaited send and before
`open` returns; so the channel is registered by the time the caller can send on
it. -/
theorem open_registers_after_send (gen : Nat → UUID) (fuel : Nat)
    (s : ConnState) (path : String) (d : Data) (r : OpenRun)
    (h : WSConn.«open» gen fuel s path d = some r) :
    r.stateAtSend = s ∧ r.uuid ∉ r.stateAtSend.channels ∧
    r.sentMsg = WSMessage.«open» r.uuid path d ∧
    r.uuid ∈ r.after.channels := by
  obtain ⟨hfresh, hsend, hmsg, hafter⟩ :=
    WSConn.open_eq_some gen fuel s path d r h
  refine ⟨hsend, ?_, hmsg, ?_⟩
  · rw [hsend]; exact hfresh
  · rw [hafter]; exact List.mem_cons_self _ _

theorem open_registers_after_send_witness :
    ("a" : UUID) ∈ ConnState.channels ⟨["a"], false⟩ :=
  (open_registers_after_send (fun _ => "a") 1 ⟨[], false⟩ "p" "d"
    { uuid := "a", stateAtSend := ⟨[], false⟩,
      sentMsg := .«open» "a" "p" "d", after := ⟨["a"], false⟩ } rfl).2.2.2

/-- C2 counterexample: a failure thrown by a channel close listener while a
CLOSE frame — and likewise while an ERROR frame — is dispatched to a channel
present in the table is routed to the connection's catch, which closes the
whole connection: the effect lists of both concrete dispatches contain a
connection-level close event, refuting "it never causes the connection to be
closed". -/
theorem close_listener_failure_closes_connection :
    WSConn.onwsmessage
      ⟨fun _ _ _ => .ok (), fun _ _ => .ok (), fun _ _ => .error "boom"⟩
      ⟨["u"], false⟩ (.close "u" "d") =
      (⟨[], true⟩,
       [.chanClose "u" (.graceful "d"), .connClose "boom"], none) ∧
    WSConn.onwsmessage
      ⟨fun _ _ _ => .ok (), fun _ _ => .ok (), fun _ _ => .error "boom"⟩
      ⟨["u"], false⟩ (.error "u" "oops") =
      (⟨[], true⟩,
       [.chanClose "u" (.chanErr "oops"), .connClose "boom"], none) ∧
    Effect.connClose "boom" ∈
      [Effect.chanClose "u" (.graceful "d"), Effect.connClose "boom"] ∧
    Effect.connClose "boom" ∈
      [Effect.chanClose "u" (.chanErr "oops"), Effect.connClose "boom"] := by
  exact ⟨by decide, by decide, by decide, by decide⟩

/-- C2 amended: a failure thrown by a path handler during open dispatch, or by
a channel message listener during data-frame dispatch, is caught and scoped to
the affected channel (closed via its catch, the table losing only that entry,
with no connection close emitted); but a failure thrown by a channel close
listener while a close-typed frame or an error-typed frame is dispatched is
routed to the CONNECTION's catch, which closes the whole connection. -/
theorem handler_failures_channel_scoped (h : Handlers) (s : ConnState)
    (uuid : UUID) (path : String) (d : Data) (e reason : String) :
    (uuid ∉ s.channels → h.onPath path uuid d = .error e →
      WSConn.onwsmessage h s (.«open» uuid path d) =
        (s, [.pathEmit path uuid d, .chanClose uuid (.chanErr e)], none)) ∧
    (uuid ∈ s.channels → h.onMessage uuid d = .error e →
      WSConn.onwsmessage h s (.data uuid d) =
        ({ s with channels := s.channels.erase uuid },
         [.chanMessage uuid d, .chanClose uuid (.chanErr e)], none)) ∧
    (uuid ∈ s.channels → s.closed = false →
      h.onClose uuid (.graceful d) = .error e →
      Effect.connClose e ∈ (WSConn.onwsmessage h s (.close uuid d)).2.1) ∧
    (uuid ∈ s.channels → s.closed = false →
      h.onClose uuid (.chanErr reason) = .error e →
      Effect.connClose e ∈ (WSConn.onwsmessage h s (.error uuid reason)).2.1) := by
  refine ⟨fun hm hp => ?_, fun hm hp => ?_, fun hm hc hp => ?_,
    fun hm hc hp => ?_⟩
  · simp [WSConn.onwsmessage, WSConn.onwsopen, hm, hp, WSChannel.«catch»,
      List.erase_cons_head]
  · simp [WSConn.onwsmessage, hm, hp, WSChannel.«catch»]
  · simp [WSConn.onwsmessage, hm, hp, WSConn.«catch», hc,
      WSConn.closeCascade]
  · simp [WSConn.onwsmessage, hm, hp, WSConn.«catch», hc,
      WSConn.closeCascade]

theorem handler_failures_channel_scoped_witness :
    WSConn.onwsmessage
      ⟨fun _ _ _ => .error "x", fun _ _ => .ok (), fun _ _ => .ok ()⟩
      ⟨[], false⟩ (.«open» "u" "p" "d") =
      (⟨[], false⟩, [.pathEmit "p" "u" "d", .chanClose "u" (.chanErr "x")],
       none) ∧
    Effect.connClose "x" ∈
      (WSConn.onwsmessage
        ⟨fun _ _ _ => .ok (), fun _ _ => .ok (), fun _ _ => .error "x"⟩
        ⟨["u"], false⟩ (.error "u" "oops")).2.1 :=
  ⟨(handler_failures_channel_scoped
      ⟨fun _ _ _ => .error "x", fun _ _ => .ok (), fun _ _ => .ok ()⟩
      ⟨[], false⟩ "u" "p" "d" "x" "oops").1 (by decide) rfl,
   (handler_failures_channel_scoped
      ⟨fun _ _ _ => .ok (), fun _ _ => .ok (), fun _ _ => .error "x"⟩
      ⟨["u"], false⟩ "u" "p" "d" "x" "oops").2.2.2 (by decide) rfl rfl⟩

/-- C3 counterexample: `WSServerConn.close` has no already-closed guard — a
first call emits the connection close event, and a second call on the
already-closed connection is not a no-op: it emits the connection close event a
second time. -/
theorem server_close_second_call_emits_again :
    WSServerConn.close ⟨[], false⟩ "bye" = (⟨[], true⟩, [.connClose "bye"]) ∧
    WSServerConn.close ⟨[], true⟩ "bye" = (⟨[], true⟩, [.connClose "bye"]) := by
  exact ⟨by decide, by decide⟩

/-- C3 amended: `WSClientConn.close` is idempotent — it is guarded by the
closed check, so a second call after any close call is a no-op with no effect;
`WSServerConn.close` is unguarded, and a second call re-emits the connection
close event. -/
theorem client_close_idempotent (s : ConnState) (r r' : String) :
    (WSClientConn.close (WSClientConn.close s r).1 r' =
      ((WSClientConn.close s r).1, [])) ∧
    (WSServerConn.close (WSServerConn.close s r).1 r' =
      ((WSServerConn.close s r).1, [.connClose r'])) := by
  constructor
  · by_cases hc : s.closed
    · simp [WSClientConn.close, hc]
    · simp [WSClientConn.close, hc, WSConn.closeCascade]
  · simp [WSServerConn.close, WSConn.closeCascade]

/-- C4: `waitpath` with a positive delay races against a timeout of the
LITERAL 1000 time units — the `delay` argument (here 500) is ignored — while a
delay of 0 correctly races with no timeout, only against connection closure.
This evaluates the code at the failing input of the claim. -/
theorem waitpath_ignores_delay :
    WSConn.waitpath 500 = .withTimeout 1000 ∧
    WSConn.waitpath 0 = .noTimeout ∧
    WaitpathRace.withTimeout 1000 ≠ .withTimeout 500 := by
  exact ⟨by decide, by decide, by decide⟩

/-- C5: `request` opens a channel and awaits the channel's terminal outcome:
omitting the delay argument uses the declared default of 1000; a terminal frame
arriving before the deadline resolves to its payload; with a nonzero deadline
and no terminal frame it resolves to the timeout condition, which is distinct
from any payload/close outcome, and the opened channel is still registered in
the returned connection state. -/
theorem request_defaults_and_times_out (gen : Nat → UUID) (fuel : Nat)
    (s : ConnState) (path : String) (d d0 : Data) (t delay : Nat) (r : OpenRun)
    (s' : ConnState) (u : UUID) (res : FinalResult) :
    (WSConn.request gen fuel s path d none =
      WSConn.request gen fuel s path d none 1000) ∧
    (t < delay → WSConn.«open» gen fuel s path d = some r →
      WSConn.request gen fuel s path d (some (t, d0)) delay =
        some (r.after, r.uuid, .value d0)) ∧
    (delay ≠ 0 →
      WSConn.request gen fuel s path d none delay = some (s', u, res) →
      res = .timedOut ∧ u ∈ s'.channels ∧ ∀ d1, res ≠ .value d1) := by
  refine ⟨rfl, fun ht hopen => ?_, fun hd hreq => ?_⟩
  · unfold WSConn.request
    rw [hopen]
    simp [WSChannel.final, ht]
  · unfold WSConn.request at hreq
    cases hopen : WSConn.«open» gen fuel s path d with
    | none => rw [hopen] at hreq; exact absurd hreq (by simp)
    | some r0 =>
        rw [hopen] at hreq
        have hf : WSChannel.final delay none = .timedOut := by
          simp [WSChannel.final, hd]
        rw [hf] at hreq
        obtain ⟨ha, hb, hc⟩ :
            r0.after = s' ∧ r0.uuid = u ∧ FinalResult.timedOut = res := by
          simpa [Prod.ext_iff] using Option.some.inj hreq
        obtain ⟨-, -, -, hshape⟩ :=
          WSConn.open_eq_some gen fuel s path d r0 hopen
        refine ⟨hc.symm, ?_, ?_⟩
        · rw [← ha, ← hb, hshape]
          exact List.mem_cons_self _ _
        · intro d1
          rw [← hc]
          simp

theorem request_defaults_and_times_out_witness :
    FinalResult.timedOut = .timedOut ∧
    ("a" : UUID) ∈ ConnState.channels ⟨["a"], false⟩ ∧
    ∀ d1, FinalResult.timedOut ≠ .value d1 :=
  (request_defaults_and_times_out (fun _ => "a") 1 ⟨[], false⟩ "p" "d" "e"
    0 1000
    { uuid := "a", stateAtSend := ⟨[], false⟩,
      sentMsg := .«open» "a" "p" "d", after := ⟨["a"], false⟩ }
    ⟨["a"], false⟩ "a" .timedOut).2.2 (by decide) rfl

/-- C8: for close/error frames addressed to one open channel the close event
fires exactly once and the identifier leaves the table exactly once: the first
frame — whether a close frame or an error frame — produces the single channel
close event and removes the entry (shrinking the table by exactly one); a
second close or error frame for the same identifier then produces no event at
all (it raises "Invalid UUID"); and an explicit double `close()` on the
channel object emits nothing the second time. -/
theorem channel_close_fires_once (h hb : Handlers) (s : ConnState)
    (uuid : UUID) (d d2 : Data) (reason : String) (c : WSChannelState)
    (s0 : ConnState) (d0 d1 : Data)
    (hm : uuid ∈ s.channels) (hnd : s.channels.Nodup)
    (hok : h.onClose uuid (.graceful d) = .ok ())
    (hoke : h.onClose uuid (.chanErr reason) = .ok ()) :
    WSConn.onwsmessage h s (.close uuid d) =
      ({ s with channels := s.channels.erase uuid },
       [.chanClose uuid (.graceful d)], none) ∧
    WSConn.onwsmessage h s (.error uuid reason) =
      ({ s with channels := s.channels.erase uuid },
       [.chanClose uuid (.chanErr reason)], none) ∧
    uuid ∉ s.channels.erase uuid ∧
    s.channels.length = (s.channels.erase uuid).length + 1 ∧
    WSConn.onwsmessage hb { s with channels := s.channels.erase uuid }
      (.close uuid d2) =
      ({ s with channels := s.channels.erase uuid }, [],
       some "Invalid UUID") ∧
    WSConn.onwsmessage hb { s with channels := s.channels.erase uuid }
      (.error uuid reason) =
      ({ s with channels := s.channels.erase uuid }, [],
       some "Invalid UUID") ∧
    (WSChannel.close (WSChannel.close c s0 d0).1
      (WSChannel.close c s0 d0).2.1 d1).2.2 = [] := by
  have hne : uuid ∉ s.channels.erase uuid := hnd.not_mem_erase
  refine ⟨?_, ?_, hne, ?_, ?_, ?_, ?_⟩
  · simp [WSConn.onwsmessage, hm, hok]
  · simp [WSConn.onwsmessage, hm, hoke]
  · have hlen := List.length_erase_of_mem hm
    have hpos := List.length_pos_of_mem hm
    omega
  · simp [WSConn.onwsmessage, hne]
  · simp [WSConn.onwsmessage, hne]
  · by_cases hc : c.closed
    · simp [WSChannel.close, hc]
    · simp [WSChannel.close, hc]

theorem channel_close_fires_once_witness :
    WSConn.onwsmessage
      ⟨fun _ _ _ => .ok (), fun _ _ => .ok (), fun _ _ => .ok ()⟩
      ⟨["u"], false⟩ (.close "u" "d") =
      (⟨[], false⟩, [.chanClose "u" (.graceful "d")], none) ∧
    WSConn.onwsmessage
      ⟨fun _ _ _ => .ok (), fun _ _ => .ok (), fun _ _ => .ok ()⟩
      ⟨["u"], false⟩ (.error "u" "r") =
      (⟨[], false⟩, [.chanClose "u" (.chanErr "r")], none) := by
  have h := channel_close_fires_once
    ⟨fun _ _ _ => .ok (), fun _ _ => .ok (), fun _ _ => .ok ()⟩
    ⟨fun _ _ _ => .ok (), fun _ _ => .ok (), fun _ _ => .ok ()⟩
    ⟨["u"], false⟩ "u" "d" "d2" "r" ⟨"u", false⟩ ⟨[], false⟩ "x" "y"
    (by decide) (by decide) rfl rfl
  exact ⟨by simpa using h.1, by simpa using h.2.1⟩

/-- C9: closing the connection (the transport-close path emits the same
connection close event) force-closes every channel still open on it, each
channel close event appearing strictly before the single connection close
event (the latter is last in the effect order), the table is emptied, the
connection is marked closed, and a send on the resulting connection fails. -/
theorem conn_close_cascades (s : ConnState) (reason : String) (m : WSMessage)
    (u : UUID) (hu : u ∈ s.channels) :
    (WSServerConn.close s reason).2.getLast? = some (.connClose reason) ∧
    Effect.chanClose u (.connTerminated reason) ∈
      (WSServerConn.close s reason).2.dropLast ∧
    (WSServerConn.close s reason).1.channels = [] ∧
    (WSServerConn.close s reason).1.closed = true ∧
    WSServerConn.send (WSServerConn.close s reason).1 m = none := by
  refine ⟨?_, ?_, rfl, rfl, rfl⟩
  · simp [WSServerConn.close, WSConn.closeCascade]
  · simp [WSServerConn.close, WSConn.closeCascade, List.dropLast_concat]
    exact hu

theorem conn_close_cascades_witness :
    WSServerConn.send ⟨[], true⟩ (.data "x" "y") = none :=
  (conn_close_cascades ⟨["u"], false⟩ "bye" (.data "x" "y") "u"
    (by decide)).2.2.2.2
